import Mathlib

/-!
Shallow embedding of the valtrack crawler's connection-lifecycle and
handshake code (pkg/ethereum/node_notifiee.go) and of the downstream
parquet consumer (consumer/main.go), with theorems checking the
natural-language specification against it.

Go byte slices are modelled as `List Nat`, Go integers as `Nat`/`Int`,
fallible RPC calls as `Except String` results supplied by an oracle, and
each handler's side effects as an explicit trace of `Effect`s in program
order.
-/

namespace Valtrack

/-- StatusRecord: the eth2 Status message
{fork-digest, head-slot, finalized-epoch, finalized-root}. -/
structure Status where
  forkDigest : List Nat
  headSlot : Nat
  finalizedEpoch : Nat
  finalizedRoot : List Nat
  deriving Repr, DecidableEq

/-- MetadataRecord: the eth2 MetaData message {SeqNumber, Attnets}. -/
structure MetaData where
  seqNumber : Nat
  attnets : List Nat
  deriving Repr, DecidableEq

/-- The compare-and-update rule inside validatePeer
(node_notifiee.go lines 150-155): if bytes.Equal(st.ForkDigest,
n.cfg.ForkDigest) and st.HeadSlot > current head slot, the whole local
status record is replaced by the peer's (SetStatus(st)); otherwise the
local record is left untouched. -/
def maybeUpdateStatus (cfgForkDigest : List Nat) (cur st : Status) : Status :=
  if st.forkDigest = cfgForkDigest then
    if st.headSlot > cur.headSlot then st else cur
  else cur

/-- Oracle supplying the outcome of each handshake RPC issued during one
validatePeer run (network effects are external to the embedded code). -/
structure RpcOracle where
  statusResult : Except String Status
  pingResult : Except String Unit
  metadataResult : Except String MetaData
  deriving Repr

/-- errors.Wrap(err, msg): the returned error carries the wrapping message
followed by the original error. -/
def wrapErr (msg err : String) : String := msg ++ ": " ++ err

/-- One observable side effect of a handshake flow, in program order. -/
inductive Effect where
  | statusRPC
  | pingRPC
  | metadataRPC
  | goodbyeRPC
  | closePeer
  | emitMetadataEvent (md : MetaData)
  | putMetadataCache (md : MetaData)
  | putBackoffCache
  | logError
  | logWarn
  | logInfo
  | logDebug
  | logFatal
  | fileLog
  deriving Repr, DecidableEq

/-- Result of one validatePeer run: the effect trace in program order, the
error returned to the caller (none on success), and the local status
record after the run. -/
structure VResult where
  trace : List Effect
  err : Option String
  localStatus : Status
  deriving Repr, DecidableEq

/-- validatePeer (node_notifiee.go lines 144-179): Status, then the
fork-digest-gated head-slot compare-and-update, then Ping, then MetaData,
then sendMetadataEvent and addToMetadataCache; the first failing RPC
returns its wrapped error and skips everything after it. -/
def validatePeer (cfgForkDigest : List Nat) (cur : Status) (o : RpcOracle) :
    VResult :=
  match o.statusResult with
  | .error e =>
      ⟨[.statusRPC], some (wrapErr "Failed to get status from peer" e), cur⟩
  | .ok st =>
      let cur2 := maybeUpdateStatus cfgForkDigest cur st
      match o.pingResult with
      | .error e =>
          ⟨[.statusRPC, .pingRPC], some (wrapErr "Failed to ping peer" e), cur2⟩
      | .ok _ =>
          match o.metadataResult with
          | .error e =>
              ⟨[.statusRPC, .pingRPC, .metadataRPC],
               some (wrapErr "Failed to get metadata from peer" e), cur2⟩
          | .ok md =>
              ⟨[.statusRPC, .pingRPC, .metadataRPC, .emitMetadataEvent md,
                .putMetadataCache md, .logInfo, .fileLog], none, cur2⟩

/-- The deferred cleanup shared by both handlers (node_notifiee.go lines
51-66 and 94-108): if Connectedness(pid) is no longer Connected, do
nothing; otherwise attempt a Goodbye RPC (logging at debug level if it
fails) and then force-close the peer with ClosePeer. -/
def cleanup (connectedAtCleanup : Bool) (goodbyeResult : Except String Unit) :
    List Effect :=
  if connectedAtCleanup then
    [.goodbyeRPC] ++
      (match goodbyeResult with
       | .error _ => [.logDebug]
       | .ok _ => []) ++
    [.closePeer]
  else []

/-- Environment seen by one handleOutboundConnection flow: the addresses
the peerstore knows for the peer, the RPC outcomes, whether the peer is
still Connected when the deferred cleanup fires, and the Goodbye outcome. -/
structure OutboundEnv where
  addrs : List Nat
  rpc : RpcOracle
  connectedAtCleanup : Bool
  goodbyeResult : Except String Unit
  deriving Repr

/-- The body of handleOutboundConnection (node_notifiee.go lines 68-83),
everything before the deferred cleanup fires: zero known addresses logs
an error and returns; otherwise validatePeer runs and a failure logs a
warning and inserts the peer into the backoff cache. -/
def outboundBody (cfgForkDigest : List Nat) (cur : Status)
    (env : OutboundEnv) : List Effect :=
  if env.addrs = [] then [.logError]
  else
    match (validatePeer cfgForkDigest cur env.rpc).err with
    | some _ =>
        (validatePeer cfgForkDigest cur env.rpc).trace ++
          [.logWarn, .putBackoffCache]
    | none => (validatePeer cfgForkDigest cur env.rpc).trace

/-- handleOutboundConnection (node_notifiee.go lines 46-84): the body
followed by the deferred cleanup, which runs on every return path.
Returns the effect trace and the local status record after the flow. -/
def handleOutboundConnection (cfgForkDigest : List Nat) (cur : Status)
    (env : OutboundEnv) : List Effect × Status :=
  (outboundBody cfgForkDigest cur env ++
     cleanup env.connectedAtCleanup env.goodbyeResult,
   if env.addrs = [] then cur
   else (validatePeer cfgForkDigest cur env.rpc).localStatus)

/-- Environment seen by one handleInboundConnection flow: whether the peer
is still Connected after the 5-second grace sleep, the MetaData RPC
outcome, the peerstore addresses, whether the peer is still Connected when
the deferred cleanup fires, and the Goodbye outcome. -/
structure InboundEnv where
  connectedAfterSleep : Bool
  metadataResult : Except String MetaData
  addrs : List Nat
  connectedAtCleanup : Bool
  goodbyeResult : Except String Unit
  deriving Repr

/-- The body of handleInboundConnection (node_notifiee.go lines 110-141),
everything before the deferred cleanup fires: after the grace sleep, an
already-closed connection logs a warning and returns; a MetaData failure
logs a warning and returns; zero peerstore addresses hit log.Fatal;
otherwise sendMetadataEvent then addToMetadataCache. The Boolean is true
exactly when the body hit log.Fatal. -/
def inboundBody (env : InboundEnv) : List Effect × Bool :=
  if env.connectedAfterSleep = false then ([.logWarn], false)
  else
    match env.metadataResult with
    | .error _ => ([.metadataRPC, .logWarn], false)
    | .ok md =>
        if env.addrs = [] then ([.metadataRPC, .logFatal], true)
        else
          ([.metadataRPC, .emitMetadataEvent md, .putMetadataCache md,
            .logInfo, .fileLog], false)

/-- handleInboundConnection (node_notifiee.go lines 86-142): the body
followed by the deferred cleanup — except on the log.Fatal path, where
zerolog's Fatal calls os.Exit, which terminates the process without
running deferred functions. -/
def handleInboundConnection (env : InboundEnv) : List Effect × Bool :=
  if (inboundBody env).2 then ((inboundBody env).1, true)
  else
    ((inboundBody env).1 ++ cleanup env.connectedAtCleanup env.goodbyeResult,
     false)

/-- True for the sendMetadataEvent effect (any payload). -/
def isEmitEffect : Effect → Bool
  | .emitMetadataEvent _ => true
  | _ => false

/-- True for the addToMetadataCache effect (any payload). -/
def isMetaCacheEffect : Effect → Bool
  | .putMetadataCache _ => true
  | _ => false

/-- True for one of the three validation RPC effects (Status, Ping,
MetaData). -/
def isValidationRPC : Effect → Bool
  | .statusRPC => true
  | .pingRPC => true
  | .metadataRPC => true
  | _ => false

/-- True for any RPC effect, Goodbye included. -/
def isAnyRPC : Effect → Bool
  | .statusRPC => true
  | .pingRPC => true
  | .metadataRPC => true
  | .goodbyeRPC => true
  | _ => false

/-- Modelled from the spec: the PeerDiscoveredEvent shape published by the
sentry (its Go struct lives outside src/); flat record of ENR, id, ip,
port, crawler identity, crawler location and a capture timestamp. -/
structure PeerDiscoveredEvent where
  enr : String
  id : String
  ip : String
  port : Int
  crawlerID : String
  crawlerLoc : String
  timestamp : Int
  deriving Repr, DecidableEq

/-- Modelled from the spec: the MetadataReceivedEvent shape published by
the sentry (its Go struct lives outside src/); flat record of id,
multiaddr, epoch, the fetched metadata payload, client version, crawler
identity, crawler location and a capture timestamp. -/
structure MetadataReceivedEvent where
  id : String
  multiaddr : String
  epoch : Nat
  metaData : Option MetaData
  clientVersion : String
  crawlerID : String
  crawlerLoc : String
  timestamp : Int
  deriving Repr, DecidableEq

/-- ParquetPeerDiscoveredEvent (consumer/main.go lines 30-38): the fixed
parquet schema row for peer_discovered.parquet. -/
structure ParquetPeerDiscoveredEvent where
  enr : String
  id : String
  ip : String
  port : Int
  crawlerID : String
  crawlerLoc : String
  timestamp : Int
  deriving Repr, DecidableEq

/-- ParquetMetadataReceivedEvent (consumer/main.go lines 40-49): the fixed
parquet schema row for metadata_received.parquet. -/
structure ParquetMetadataReceivedEvent where
  id : String
  multiaddr : String
  epoch : Nat
  metaData : Option MetaData
  clientVersion : String
  crawlerID : String
  crawlerLoc : String
  timestamp : Int
  deriving Repr, DecidableEq

/-- The record built by storePeerDiscoveredEvent (consumer/main.go lines
170-183): the Go struct literal copies ENR, ID, IP, Port, CrawlerID and
CrawlerLoc and leaves Timestamp at its zero value. -/
def storePeerDiscoveredEvent (e : PeerDiscoveredEvent) :
    ParquetPeerDiscoveredEvent :=
  { enr := e.enr, id := e.id, ip := e.ip, port := e.port,
    crawlerID := e.crawlerID, crawlerLoc := e.crawlerLoc, timestamp := 0 }

/-- The record built by storeMetadataReceivedEvent (consumer/main.go lines
185-198): the Go struct literal copies ID, Multiaddr, Epoch,
ClientVersion, CrawlerID and CrawlerLoc and leaves MetaData and Timestamp
at their zero values (nil and 0). -/
def storeMetadataReceivedEvent (e : MetadataReceivedEvent) :
    ParquetMetadataReceivedEvent :=
  { id := e.id, multiaddr := e.multiaddr, epoch := e.epoch, metaData := none,
    clientVersion := e.clientVersion, crawlerID := e.crawlerID,
    crawlerLoc := e.crawlerLoc, timestamp := 0 }

/-- One received JetStream message as handleMessage sees it: its subject
together with the result of json.Unmarshal on its payload, plus the
outcomes of the parquet write and of msg.Ack. -/
inductive MsgBody where
  | peerDiscovered (parsed : Except String PeerDiscoveredEvent)
  | metadataReceived (parsed : Except String MetadataReceivedEvent)
  | other (subject : String)
  deriving Repr

structure ConsumerMsg where
  body : MsgBody
  writeResult : Except String Unit
  ackResult : Except String Unit
  deriving Repr

/-- One observable action of handleMessage, in program order. -/
inductive CAct where
  | term
  | logEvent
  | writeAttemptPD (r : ParquetPeerDiscoveredEvent)
  | writeAttemptMD (r : ParquetMetadataReceivedEvent)
  | writeErrLog
  | ack
  | ackErrLog
  | unknownLog
  deriving Repr, DecidableEq

/-- The trailing msg.Ack() call: acknowledge, logging a failure. -/
def ackActs (ackResult : Except String Unit) : List CAct :=
  [.ack] ++ (match ackResult with | .error _ => [.ackErrLog] | .ok _ => [])

/-- handleMessage (consumer/main.go lines 138-168): a payload that fails
to unmarshal is Term-ed and the handler returns before the Ack; a parsed
payload is logged, written via the store function (a write error only
logs), and then Ack-ed regardless of the write outcome; an unknown
subject is logged and Ack-ed. -/
def handleMessage (m : ConsumerMsg) : List CAct :=
  match m.body with
  | .peerDiscovered (.error _) => [.term]
  | .peerDiscovered (.ok e) =>
      [.logEvent, .writeAttemptPD (storePeerDiscoveredEvent e)] ++
        (match m.writeResult with | .error _ => [.writeErrLog] | .ok _ => []) ++
        ackActs m.ackResult
  | .metadataReceived (.error _) => [.term]
  | .metadataReceived (.ok e) =>
      [.logEvent, .writeAttemptMD (storeMetadataReceivedEvent e)] ++
        (match m.writeResult with | .error _ => [.writeErrLog] | .ok _ => []) ++
        ackActs m.ackResult
  | .other _ => [.unknownLog] ++ ackActs m.ackResult

/-- True for either parquet write-attempt action. -/
def isWriteAttempt : CAct → Bool
  | .writeAttemptPD _ => true
  | .writeAttemptMD _ => true
  | _ => false

/-! ## Supporting lemmas -/

theorem maybeUpdateStatus_headSlot_le (cfg : List Nat) (cur st : Status) :
    cur.headSlot ≤ (maybeUpdateStatus cfg cur st).headSlot := by
  unfold maybeUpdateStatus
  split
  · split
    · omega
    · exact Nat.le_refl _
  · exact Nat.le_refl _

theorem maybeUpdateStatus_mismatch (cfg : List Nat) (cur st : Status)
    (h : st.forkDigest ≠ cfg) : maybeUpdateStatus cfg cur st = cur := by
  unfold maybeUpdateStatus
  simp [h]

theorem maybeUpdateStatus_of_ne (cfg : List Nat) (cur st : Status)
    (h : maybeUpdateStatus cfg cur st ≠ cur) :
    st.forkDigest = cfg ∧ cur.headSlot < st.headSlot ∧
      maybeUpdateStatus cfg cur st = st := by
  unfold maybeUpdateStatus at h ⊢
  by_cases hd : st.forkDigest = cfg
  · by_cases hs : st.headSlot > cur.headSlot
    · exact ⟨hd, hs, by simp [hd, hs]⟩
    · simp [hd, hs] at h
  · simp [hd] at h

theorem foldl_maybeUpdateStatus_mono (cfg : List Nat) (l : List Status) :
    ∀ s : Status, s.headSlot ≤ (l.foldl (maybeUpdateStatus cfg) s).headSlot := by
  induction l with
  | nil => intro s; exact Nat.le_refl _
  | cons st rest ih =>
      intro s
      exact Nat.le_trans (maybeUpdateStatus_headSlot_le cfg s st)
        (ih (maybeUpdateStatus cfg s st))

theorem validatePeer_localStatus_eq (cfg : List Nat) (cur : Status)
    (o : RpcOracle) (st : Status) (h : o.statusResult = .ok st) :
    (validatePeer cfg cur o).localStatus = maybeUpdateStatus cfg cur st := by
  unfold validatePeer
  rw [h]
  cases o.pingResult with
  | error e => rfl
  | ok u =>
      cases o.metadataResult with
      | error e => rfl
      | ok md => rfl

theorem validatePeer_localStatus_of_statusErr (cfg : List Nat) (cur : Status)
    (o : RpcOracle) (e : String) (h : o.statusResult = .error e) :
    (validatePeer cfg cur o).localStatus = cur := by
  unfold validatePeer
  rw [h]

/-! ## Claim theorems -/

/-- C1: across any Status exchange the local head-slot is monotonic
non-decreasing; validatePeer changes the local record only when the
peer's fork-digest equals the configured one and its head-slot strictly
exceeds the local one, and a mismatched fork-digest never changes the
local record; folding the rule over any sequence of peer statuses is also
non-decreasing. -/
theorem validatePeer_headSlot_monotonic (cfg : List Nat) (cur : Status)
    (o : RpcOracle) :
    cur.headSlot ≤ (validatePeer cfg cur o).localStatus.headSlot ∧
    (∀ st : Status, o.statusResult = .ok st → st.forkDigest ≠ cfg →
      (validatePeer cfg cur o).localStatus = cur) ∧
    ((validatePeer cfg cur o).localStatus ≠ cur →
      ∃ st : Status, o.statusResult = .ok st ∧ st.forkDigest = cfg ∧
        cur.headSlot < st.headSlot ∧
        (validatePeer cfg cur o).localStatus = st) ∧
    (∀ l : List Status, ∀ s : Status,
      s.headSlot ≤ (l.foldl (maybeUpdateStatus cfg) s).headSlot) := by
  refine ⟨?_, ?_, ?_, ?_⟩
  · cases hst : o.statusResult with
    | error e => rw [validatePeer_localStatus_of_statusErr cfg cur o e hst]
    | ok st =>
        rw [validatePeer_localStatus_eq cfg cur o st hst]
        exact maybeUpdateStatus_headSlot_le cfg cur st
  · intro st hst hne
    rw [validatePeer_localStatus_eq cfg cur o st hst]
    exact maybeUpdateStatus_mismatch cfg cur st hne
  · intro hne
    cases hst : o.statusResult with
    | error e =>
        exact absurd (validatePeer_localStatus_of_statusErr cfg cur o e hst) hne
    | ok st =>
        rw [validatePeer_localStatus_eq cfg cur o st hst] at hne ⊢
        obtain ⟨hd, hs, heq⟩ := maybeUpdateStatus_of_ne cfg cur st hne
        exact ⟨st, rfl, hd, hs, heq⟩
  · exact fun l s => foldl_maybeUpdateStatus_mono cfg l s

/-- C1 witness: a concrete mismatched-fork-digest exchange leaves the
local record unchanged even though the peer reports a far higher
head-slot. -/
theorem validatePeer_headSlot_monotonic_witness :
    (validatePeer [0, 0, 0, 0] ⟨[0, 0, 0, 0], 50, 1, [9]⟩
      ⟨.ok ⟨[1, 2, 3, 4], 1000000, 2, [8]⟩, .ok (), .ok ⟨7, [255]⟩⟩).localStatus
      = ⟨[0, 0, 0, 0], 50, 1, [9]⟩ :=
  (validatePeer_headSlot_monotonic [0, 0, 0, 0] ⟨[0, 0, 0, 0], 50, 1, [9]⟩
      ⟨.ok ⟨[1, 2, 3, 4], 1000000, 2, [8]⟩, .ok (), .ok ⟨7, [255]⟩⟩).2.1
    ⟨[1, 2, 3, 4], 1000000, 2, [8]⟩ rfl (by decide)

/-- C10: when the rule fires (matching fork-digest and strictly greater
head-slot) the entire local record is replaced by the peer's — every
field, the finalized-epoch/root fields included, takes the peer's value;
when it does not fire, every field is unchanged; and validatePeer applies
exactly this rule to the status it receives. -/
theorem maybeUpdateStatus_whole_record (cfg : List Nat) (cur st : Status) :
    (st.forkDigest = cfg → cur.headSlot < st.headSlot →
      maybeUpdateStatus cfg cur st = st ∧
      (maybeUpdateStatus cfg cur st).finalizedEpoch = st.finalizedEpoch ∧
      (maybeUpdateStatus cfg cur st).finalizedRoot = st.finalizedRoot) ∧
    (st.forkDigest ≠ cfg ∨ ¬cur.headSlot < st.headSlot →
      maybeUpdateStatus cfg cur st = cur) ∧
    (∀ o : RpcOracle, o.statusResult = .ok st →
      (validatePeer cfg cur o).localStatus = maybeUpdateStatus cfg cur st) := by
  refine ⟨?_, ?_, ?_⟩
  · intro hd hs
    have h : maybeUpdateStatus cfg cur st = st := by
      unfold maybeUpdateStatus
      simp [hd, hs]
    exact ⟨h, by rw [h], by rw [h]⟩
  · intro h
    unfold maybeUpdateStatus
    rcases h with h | h
    · simp [h]
    · by_cases hd : st.forkDigest = cfg
      · simp [hd, h]
      · simp [hd]
  · exact fun o ho => validatePeer_localStatus_eq cfg cur o st ho

/-- C10 witness: a concrete firing update copies the whole peer record,
finalized fields included, and a concrete non-firing one changes
nothing. -/
theorem maybeUpdateStatus_whole_record_witness :
    maybeUpdateStatus [5, 5] ⟨[5, 5], 50, 1, [9]⟩ ⟨[5, 5], 100, 2, [8]⟩
        = ⟨[5, 5], 100, 2, [8]⟩ ∧
      maybeUpdateStatus [5, 5] ⟨[5, 5], 50, 1, [9]⟩ ⟨[5, 5], 40, 2, [8]⟩
        = ⟨[5, 5], 50, 1, [9]⟩ :=
  ⟨((maybeUpdateStatus_whole_record [5, 5] ⟨[5, 5], 50, 1, [9]⟩
      ⟨[5, 5], 100, 2, [8]⟩).1 rfl (by decide)).1,
   (maybeUpdateStatus_whole_record [5, 5] ⟨[5, 5], 50, 1, [9]⟩
      ⟨[5, 5], 40, 2, [8]⟩).2.1 (Or.inr (by decide))⟩

/-- C6: validatePeer runs Status, then the compare-and-update of the local
StatusRecord, then Ping, then MetaData, then event emission and cache
insertion, in that strict order; the first failing RPC aborts every later
step, the compare-and-update is applied after a successful Status even
when a later step fails, and the single wrapped first error is what the
caller receives (no aggregation). -/
theorem validatePeer_step_order (cfg : List Nat) (cur : Status)
    (o : RpcOracle) :
    (∀ e : String, o.statusResult = .error e →
      (validatePeer cfg cur o).trace = [.statusRPC] ∧
      (validatePeer cfg cur o).err
        = some (wrapErr "Failed to get status from peer" e) ∧
      (validatePeer cfg cur o).localStatus = cur) ∧
    (∀ st : Status, ∀ e : String, o.statusResult = .ok st →
      o.pingResult = .error e →
      (validatePeer cfg cur o).trace = [.statusRPC, .pingRPC] ∧
      (validatePeer cfg cur o).err = some (wrapErr "Failed to ping peer" e) ∧
      (validatePeer cfg cur o).localStatus = maybeUpdateStatus cfg cur st) ∧
    (∀ st : Status, ∀ e : String, o.statusResult = .ok st →
      o.pingResult = .ok () → o.metadataResult = .error e →
      (validatePeer cfg cur o).trace = [.statusRPC, .pingRPC, .metadataRPC] ∧
      (validatePeer cfg cur o).err
        = some (wrapErr "Failed to get metadata from peer" e) ∧
      (validatePeer cfg cur o).localStatus = maybeUpdateStatus cfg cur st) ∧
    (∀ st : Status, ∀ md : MetaData, o.statusResult = .ok st →
      o.pingResult = .ok () → o.metadataResult = .ok md →
      (validatePeer cfg cur o).trace
        = [.statusRPC, .pingRPC, .metadataRPC, .emitMetadataEvent md,
           .putMetadataCache md, .logInfo, .fileLog] ∧
      (validatePeer cfg cur o).err = none ∧
      (validatePeer cfg cur o).localStatus = maybeUpdateStatus cfg cur st) := by
  refine ⟨?_, ?_, ?_, ?_⟩
  · intro e h
    unfold validatePeer
    rw [h]
    exact ⟨rfl, rfl, rfl⟩
  · intro st e h1 h2
    unfold validatePeer
    rw [h1, h2]
    exact ⟨rfl, rfl, rfl⟩
  · intro st e h1 h2 h3
    unfold validatePeer
    rw [h1, h2, h3]
    exact ⟨rfl, rfl, rfl⟩
  · intro st md h1 h2 h3
    unfold validatePeer
    rw [h1, h2, h3]
    exact ⟨rfl, rfl, rfl⟩

/-- C6 witness: a concrete run whose Ping fails performs exactly Status
then Ping, surfaces only the wrapped ping error, and has already applied
the status update. -/
theorem validatePeer_step_order_witness :
    (validatePeer [3] ⟨[3], 10, 0, []⟩
      ⟨.ok ⟨[3], 20, 1, [4]⟩, .error "timeout", .ok ⟨1, [0]⟩⟩).trace
        = [.statusRPC, .pingRPC] ∧
    (validatePeer [3] ⟨[3], 10, 0, []⟩
      ⟨.ok ⟨[3], 20, 1, [4]⟩, .error "timeout", .ok ⟨1, [0]⟩⟩).err
        = some (wrapErr "Failed to ping peer" "timeout") ∧
    (validatePeer [3] ⟨[3], 10, 0, []⟩
      ⟨.ok ⟨[3], 20, 1, [4]⟩, .error "timeout", .ok ⟨1, [0]⟩⟩).localStatus
        = maybeUpdateStatus [3] ⟨[3], 10, 0, []⟩ ⟨[3], 20, 1, [4]⟩ :=
  (validatePeer_step_order [3] ⟨[3], 10, 0, []⟩
      ⟨.ok ⟨[3], 20, 1, [4]⟩, .error "timeout", .ok ⟨1, [0]⟩⟩).2.1
    ⟨[3], 20, 1, [4]⟩ "timeout" rfl rfl

theorem validatePeer_success_shape (cfg : List Nat) (cur : Status)
    (o : RpcOracle) (h : (validatePeer cfg cur o).err = none) :
    ∃ md : MetaData, o.metadataResult = .ok md ∧
      (validatePeer cfg cur o).trace
        = [.statusRPC, .pingRPC, .metadataRPC, .emitMetadataEvent md,
           .putMetadataCache md, .logInfo, .fileLog] := by
  obtain ⟨s, p, m⟩ := o
  cases s with
  | error e => simp [validatePeer] at h
  | ok st =>
      cases p with
      | error e => simp [validatePeer] at h
      | ok u =>
          cases m with
          | error e => simp [validatePeer] at h
          | ok md => exact ⟨md, rfl, rfl⟩

theorem inboundBody_success (env : InboundEnv) (md : MetaData)
    (hc : env.connectedAfterSleep = true) (hm : env.metadataResult = .ok md)
    (ha : env.addrs ≠ []) :
    inboundBody env
      = ([.metadataRPC, .emitMetadataEvent md, .putMetadataCache md, .logInfo,
          .fileLog], false) := by
  unfold inboundBody
  rw [hc, hm]
  simp [ha]

theorem handleInboundConnection_success_trace (env : InboundEnv)
    (md : MetaData) (hc : env.connectedAfterSleep = true)
    (hm : env.metadataResult = .ok md) (ha : env.addrs ≠ []) :
    (handleInboundConnection env).1
      = [.metadataRPC, .emitMetadataEvent md, .putMetadataCache md, .logInfo,
         .fileLog] ++ cleanup env.connectedAtCleanup env.goodbyeResult := by
  unfold handleInboundConnection
  rw [inboundBody_success env md hc hm ha]
  simp

theorem cleanup_countP_zero (c : Bool) (g : Except String Unit) :
    (cleanup c g).countP isEmitEffect = 0 ∧
      (cleanup c g).countP isMetaCacheEffect = 0 := by
  cases c <;> cases g <;> exact ⟨rfl, rfl⟩

/-- C3 counterexample: a concrete successful validatePeer run emits the
MetadataReceivedEvent strictly before the metadata-cache insertion, so
the event is emitted without the corresponding cache update having been
made — the claimed cache-before-emission order is false. -/
theorem validatePeer_cache_before_emit_counterexample :
    (validatePeer [0] ⟨[0], 1, 0, []⟩
      ⟨.ok ⟨[0], 2, 0, []⟩, .ok (), .ok ⟨7, [255]⟩⟩).err = none ∧
    (validatePeer [0] ⟨[0], 1, 0, []⟩
      ⟨.ok ⟨[0], 2, 0, []⟩, .ok (), .ok ⟨7, [255]⟩⟩).trace.countP isEmitEffect
        = 1 ∧
    (validatePeer [0] ⟨[0], 1, 0, []⟩
      ⟨.ok ⟨[0], 2, 0, []⟩, .ok (), .ok ⟨7, [255]⟩⟩).trace.countP
        isMetaCacheEffect = 1 ∧
    (validatePeer [0] ⟨[0], 1, 0, []⟩
      ⟨.ok ⟨[0], 2, 0, []⟩, .ok (), .ok ⟨7, [255]⟩⟩).trace.findIdx isEmitEffect
      < (validatePeer [0] ⟨[0], 1, 0, []⟩
          ⟨.ok ⟨[0], 2, 0, []⟩, .ok (), .ok ⟨7, [255]⟩⟩).trace.findIdx
            isMetaCacheEffect := by
  decide

/-- C3 amended: every successful validatePeer run, and every successful
inbound flow, performs exactly one event emission and exactly one
metadata-cache insertion, with the emission immediately before the cache
insertion (emission first) and both carrying the same metadata payload. -/
theorem metadata_emit_then_cache (cfg : List Nat) (cur : Status)
    (o : RpcOracle) (env : InboundEnv) :
    ((validatePeer cfg cur o).err = none →
      (validatePeer cfg cur o).trace.countP isEmitEffect = 1 ∧
      (validatePeer cfg cur o).trace.countP isMetaCacheEffect = 1 ∧
      (validatePeer cfg cur o).trace.findIdx isEmitEffect + 1
        = (validatePeer cfg cur o).trace.findIdx isMetaCacheEffect ∧
      (∃ md : MetaData,
        Effect.emitMetadataEvent md ∈ (validatePeer cfg cur o).trace ∧
        Effect.putMetadataCache md ∈ (validatePeer cfg cur o).trace)) ∧
    (∀ md : MetaData, env.connectedAfterSleep = true →
      env.metadataResult = .ok md → env.addrs ≠ [] →
      (handleInboundConnection env).1.countP isEmitEffect = 1 ∧
      (handleInboundConnection env).1.countP isMetaCacheEffect = 1 ∧
      (handleInboundConnection env).1.findIdx isEmitEffect + 1
        = (handleInboundConnection env).1.findIdx isMetaCacheEffect ∧
      Effect.emitMetadataEvent md ∈ (handleInboundConnection env).1 ∧
      Effect.putMetadataCache md ∈ (handleInboundConnection env).1) := by
  constructor
  · intro h
    obtain ⟨md, hm, ht⟩ := validatePeer_success_shape cfg cur o h
    rw [ht]
    refine ⟨rfl, rfl, rfl, md, ?_, ?_⟩ <;> simp
  · intro md hc hm ha
    have ht := handleInboundConnection_success_trace env md hc hm ha
    rw [ht]
    obtain ⟨hz1, hz2⟩ :=
      cleanup_countP_zero env.connectedAtCleanup env.goodbyeResult
    refine ⟨?_, ?_, ?_, ?_, ?_⟩
    · rw [List.countP_append, hz1]; rfl
    · rw [List.countP_append, hz2]; rfl
    · rfl
    · simp
    · simp

/-- C3 witness: a concrete successful run has exactly one event
emission. -/
theorem metadata_emit_then_cache_witness :
    (validatePeer [2] ⟨[2], 1, 0, []⟩
      ⟨.ok ⟨[2], 3, 0, []⟩, .ok (), .ok ⟨9, [1]⟩⟩).trace.countP isEmitEffect
      = 1 :=
  ((metadata_emit_then_cache [2] ⟨[2], 1, 0, []⟩
      ⟨.ok ⟨[2], 3, 0, []⟩, .ok (), .ok ⟨9, [1]⟩⟩
      ⟨true, .ok ⟨9, [1]⟩, [5], true, .ok ()⟩).1 rfl).1

theorem validatePeer_trace_flow_only (cfg : List Nat) (cur : Status)
    (o : RpcOracle) :
    Effect.logFatal ∉ (validatePeer cfg cur o).trace ∧
    Effect.goodbyeRPC ∉ (validatePeer cfg cur o).trace ∧
    Effect.closePeer ∉ (validatePeer cfg cur o).trace ∧
    Effect.putBackoffCache ∉ (validatePeer cfg cur o).trace := by
  obtain ⟨s, p, m⟩ := o
  cases s <;> cases p <;> cases m <;> simp [validatePeer]

theorem validatePeer_err_no_cache (cfg : List Nat) (cur : Status)
    (o : RpcOracle) (e : String) (h : (validatePeer cfg cur o).err = some e) :
    ∀ md : MetaData,
      Effect.putMetadataCache md ∉ (validatePeer cfg cur o).trace := by
  obtain ⟨s, p, m⟩ := o
  cases s <;> cases p <;> cases m <;> simp [validatePeer] at h ⊢

theorem cleanup_mem_only (c : Bool) (g : Except String Unit) (e : Effect)
    (he : e ∈ cleanup c g) :
    e = .goodbyeRPC ∨ e = .logDebug ∨ e = .closePeer := by
  cases c <;> cases g <;> simp [cleanup] at he <;> tauto

theorem cleanup_true_goodbye_close (g : Except String Unit) :
    Effect.goodbyeRPC ∈ cleanup true g ∧
      (cleanup true g).getLast? = some .closePeer ∧ cleanup true g ≠ [] := by
  cases g <;> exact ⟨by simp [cleanup], rfl, by simp [cleanup]⟩

theorem outboundBody_no_goodbye_close (cfg : List Nat) (cur : Status)
    (env : OutboundEnv) :
    Effect.goodbyeRPC ∉ outboundBody cfg cur env ∧
    Effect.closePeer ∉ outboundBody cfg cur env ∧
    Effect.logFatal ∉ outboundBody cfg cur env := by
  obtain ⟨hf, hg, hc, _⟩ := validatePeer_trace_flow_only cfg cur env.rpc
  unfold outboundBody
  by_cases ha : env.addrs = []
  · simp [ha]
  · cases herr : (validatePeer cfg cur env.rpc).err <;> simp [ha, hf, hg, hc]

theorem inboundBody_no_goodbye_close (env : InboundEnv) :
    Effect.goodbyeRPC ∉ (inboundBody env).1 ∧
    Effect.closePeer ∉ (inboundBody env).1 := by
  obtain ⟨cs, mr, ad, c, g⟩ := env
  cases cs <;> cases mr <;> by_cases ha : ad = [] <;> simp [inboundBody, ha]

theorem inboundBody_nonfatal_no_fatal (env : InboundEnv)
    (h : (inboundBody env).2 = false) :
    Effect.logFatal ∉ (inboundBody env).1 := by
  obtain ⟨cs, mr, ad, c, g⟩ := env
  cases cs <;> cases mr <;> by_cases ha : ad = [] <;>
    simp [inboundBody, ha] at h ⊢

theorem inboundBody_fatal_iff (env : InboundEnv) :
    (inboundBody env).2 = true ↔
      env.connectedAfterSleep = true ∧
        (∃ md : MetaData, env.metadataResult = .ok md) ∧ env.addrs = [] := by
  obtain ⟨cs, mr, ad, c, g⟩ := env
  cases cs <;> cases mr <;> by_cases ha : ad = [] <;> simp [inboundBody, ha]

theorem handleInboundConnection_fatal_eq (env : InboundEnv) :
    (handleInboundConnection env).2 = (inboundBody env).2 := by
  unfold handleInboundConnection
  by_cases hb : (inboundBody env).2 <;> simp [hb]

theorem handleInboundConnection_nonfatal_trace (env : InboundEnv)
    (h : (inboundBody env).2 = false) :
    (handleInboundConnection env).1
      = (inboundBody env).1 ++
          cleanup env.connectedAtCleanup env.goodbyeResult := by
  unfold handleInboundConnection
  simp [h]

theorem handleOutboundConnection_trace (cfg : List Nat) (cur : Status)
    (env : OutboundEnv) :
    (handleOutboundConnection cfg cur env).1
      = outboundBody cfg cur env ++
          cleanup env.connectedAtCleanup env.goodbyeResult := rfl

theorem cleanup_false (g : Except String Unit) : cleanup false g = [] := rfl

/-- C2 counterexample: an inbound flow that passes the grace period,
fetches metadata successfully, but finds zero peerstore addresses hits
log.Fatal — the flow terminates the process, contradicting the claim
that no flow ever does. -/
theorem handleInboundConnection_fatal_counterexample :
    (handleInboundConnection ⟨true, .ok ⟨7, [255]⟩, [], true, .ok ()⟩).2
        = true ∧
      Effect.logFatal
        ∈ (handleInboundConnection ⟨true, .ok ⟨7, [255]⟩, [], true, .ok ()⟩).1
        := by
  decide

/-- C2 amended: every failure inside a handshake flow is handled within
that flow — an outbound flow never reaches a fatal log, and an inbound
flow never does either except in exactly one case: the grace period
passes, MetaData succeeds, and the peerstore has zero addresses, where
log.Fatal terminates the process. No other path exits or propagates an
error to the dispatcher. -/
theorem handshake_failures_contained (cfg : List Nat) (cur : Status)
    (envO : OutboundEnv) (envI : InboundEnv) :
    Effect.logFatal ∉ (handleOutboundConnection cfg cur envO).1 ∧
    ((handleInboundConnection envI).2 = false →
      Effect.logFatal ∉ (handleInboundConnection envI).1) ∧
    ((handleInboundConnection envI).2 = true ↔
      envI.connectedAfterSleep = true ∧
        (∃ md : MetaData, envI.metadataResult = .ok md) ∧
        envI.addrs = []) := by
  refine ⟨?_, ?_, ?_⟩
  · rw [handleOutboundConnection_trace]
    intro h
    rcases List.mem_append.1 h with h | h
    · exact (outboundBody_no_goodbye_close cfg cur envO).2.2 h
    · rcases cleanup_mem_only _ _ _ h with h | h | h <;> simp at h
  · intro h2
    have hb : (inboundBody envI).2 = false := by
      rw [← handleInboundConnection_fatal_eq]; exact h2
    rw [handleInboundConnection_nonfatal_trace envI hb]
    intro h
    rcases List.mem_append.1 h with h | h
    · exact inboundBody_nonfatal_no_fatal envI hb h
    · rcases cleanup_mem_only _ _ _ h with h | h | h <;> simp at h
  · rw [handleInboundConnection_fatal_eq]
    exact inboundBody_fatal_iff envI

/-- C2 witness: a concrete non-fatal inbound flow (connection closed
during the grace period) produces no fatal log. -/
theorem handshake_failures_contained_witness :
    Effect.logFatal
      ∉ (handleInboundConnection ⟨false, .error "e", [], true, .ok ()⟩).1 :=
  (handshake_failures_contained [] ⟨[], 0, 0, []⟩
      ⟨[], ⟨.error "x", .ok (), .error "y"⟩, false, .ok ()⟩
      ⟨false, .error "e", [], true, .ok ()⟩).2.1 rfl

/-- C4 counterexample: an outbound flow for a peer with zero known
addresses whose connection is still open at cleanup time does issue an
RPC — the deferred cleanup sends Goodbye — contradicting the claim that
no RPC of any kind, Goodbye included, is issued. -/
theorem outbound_no_addrs_goodbye_counterexample :
    Effect.goodbyeRPC
      ∈ (handleOutboundConnection [0] ⟨[0], 1, 0, []⟩
          ⟨[], ⟨.error "u", .error "u", .error "u"⟩, true, .ok ()⟩).1 := by
  decide

/-- C4 amended: an outbound flow for a peer with zero known addresses
issues no validation RPC (Status, Ping or MetaData) and inserts neither a
backoff nor a metadata cache entry; the only RPC it can issue is the
Goodbye of the deferred cleanup, sent exactly when the connection is
still open at cleanup time. -/
theorem outbound_no_addrs_no_validation (cfg : List Nat) (cur : Status)
    (env : OutboundEnv) (ha : env.addrs = []) :
    (∀ e ∈ (handleOutboundConnection cfg cur env).1,
      isValidationRPC e = false) ∧
    Effect.putBackoffCache ∉ (handleOutboundConnection cfg cur env).1 ∧
    (∀ md : MetaData,
      Effect.putMetadataCache md ∉ (handleOutboundConnection cfg cur env).1) ∧
    (Effect.goodbyeRPC ∈ (handleOutboundConnection cfg cur env).1 ↔
      env.connectedAtCleanup = true) := by
  have hb : outboundBody cfg cur env = [.logError] := by
    simp [outboundBody, ha]
  have ht : (handleOutboundConnection cfg cur env).1
      = [.logError] ++ cleanup env.connectedAtCleanup env.goodbyeResult := by
    rw [handleOutboundConnection_trace, hb]
  refine ⟨?_, ?_, ?_, ?_⟩
  · intro e he
    rw [ht] at he
    rcases List.mem_append.1 he with h | h
    · simp at h; subst h; rfl
    · rcases cleanup_mem_only _ _ _ h with h | h | h <;> subst h <;> rfl
  · rw [ht]
    intro h
    rcases List.mem_append.1 h with h | h
    · simp at h
    · rcases cleanup_mem_only _ _ _ h with h | h | h <;> simp at h
  · intro md
    rw [ht]
    intro h
    rcases List.mem_append.1 h with h | h
    · simp at h
    · rcases cleanup_mem_only _ _ _ h with h | h | h <;> simp at h
  · constructor
    · intro h
      rw [ht] at h
      rcases List.mem_append.1 h with h | h
      · simp at h
      · by_cases hc : env.connectedAtCleanup = true
        · exact hc
        · have hcf : env.connectedAtCleanup = false := by
            simpa using hc
          rw [hcf, cleanup_false] at h
          simp at h
    · intro hc
      rw [ht]
      refine List.mem_append_right _ ?_
      rw [hc]
      exact (cleanup_true_goodbye_close env.goodbyeResult).1

/-- C4 witness: for a concrete zero-address outbound flow, no backoff
cache entry is inserted. -/
theorem outbound_no_addrs_no_validation_witness :
    Effect.putBackoffCache
      ∉ (handleOutboundConnection [0] ⟨[0], 1, 0, []⟩
          ⟨[], ⟨.error "u", .error "u", .error "u"⟩, false, .ok ()⟩).1 :=
  (outbound_no_addrs_no_validation [0] ⟨[0], 1, 0, []⟩
      ⟨[], ⟨.error "u", .error "u", .error "u"⟩, false, .ok ()⟩ rfl).2.1

/-- C5: on every returning exit path of either flow, the deferred cleanup
leaves the connection closed: if the connection is still open at cleanup
time a Goodbye is attempted and the very last effect is the forced close
(whatever the Goodbye outcome); if it already closed on its own, neither
a Goodbye nor a close happens. -/
theorem cleanup_closes_connection (cfg : List Nat) (cur : Status)
    (envO : OutboundEnv) (envI : InboundEnv) :
    ((envO.connectedAtCleanup = true →
        Effect.goodbyeRPC ∈ (handleOutboundConnection cfg cur envO).1 ∧
        (handleOutboundConnection cfg cur envO).1.getLast?
          = some .closePeer) ∧
     (envO.connectedAtCleanup = false →
        Effect.goodbyeRPC ∉ (handleOutboundConnection cfg cur envO).1 ∧
        Effect.closePeer ∉ (handleOutboundConnection cfg cur envO).1)) ∧
    ((handleInboundConnection envI).2 = false →
      (envI.connectedAtCleanup = true →
        Effect.goodbyeRPC ∈ (handleInboundConnection envI).1 ∧
        (handleInboundConnection envI).1.getLast? = some .closePeer) ∧
      (envI.connectedAtCleanup = false →
        Effect.goodbyeRPC ∉ (handleInboundConnection envI).1 ∧
        Effect.closePeer ∉ (handleInboundConnection envI).1)) := by
  constructor
  · constructor
    · intro hc
      rw [handleOutboundConnection_trace, hc]
      obtain ⟨hg, hl, hn⟩ := cleanup_true_goodbye_close envO.goodbyeResult
      exact ⟨List.mem_append_right _ hg,
        by rw [List.getLast?_append_of_ne_nil _ hn, hl]⟩
    · intro hc
      rw [handleOutboundConnection_trace, hc, cleanup_false,
        List.append_nil]
      obtain ⟨h1, h2, _⟩ := outboundBody_no_goodbye_close cfg cur envO
      exact ⟨h1, h2⟩
  · intro h2
    have hb : (inboundBody envI).2 = false := by
      rw [← handleInboundConnection_fatal_eq]; exact h2
    constructor
    · intro hc
      rw [handleInboundConnection_nonfatal_trace envI hb, hc]
      obtain ⟨hg, hl, hn⟩ := cleanup_true_goodbye_close envI.goodbyeResult
      exact ⟨List.mem_append_right _ hg,
        by rw [List.getLast?_append_of_ne_nil _ hn, hl]⟩
    · intro hc
      rw [handleInboundConnection_nonfatal_trace envI hb, hc, cleanup_false,
        List.append_nil]
      exact inboundBody_no_goodbye_close envI

/-- C5 witness: a concrete still-open outbound flow whose Goodbye fails
still ends with the forced close as its final effect. -/
theorem cleanup_closes_connection_witness :
    Effect.goodbyeRPC
        ∈ (handleOutboundConnection [0] ⟨[0], 1, 0, []⟩
            ⟨[7], ⟨.error "u", .ok (), .ok ⟨1, [2]⟩⟩, true,
              .error "g"⟩).1 ∧
      (handleOutboundConnection [0] ⟨[0], 1, 0, []⟩
          ⟨[7], ⟨.error "u", .ok (), .ok ⟨1, [2]⟩⟩, true,
            .error "g"⟩).1.getLast? = some .closePeer :=
  (cleanup_closes_connection [0] ⟨[0], 1, 0, []⟩
      ⟨[7], ⟨.error "u", .ok (), .ok ⟨1, [2]⟩⟩, true, .error "g"⟩
      ⟨true, .ok ⟨1, [2]⟩, [7], true, .ok ()⟩).1.1 rfl

/-- C7: every failing outbound validatePeer run (Status, Ping or MetaData
error) inserts the peer's address info into the backoff cache by the time
the flow completes, and inserts or overwrites no metadata cache entry. -/
theorem outbound_validate_failure_backoff (cfg : List Nat) (cur : Status)
    (env : OutboundEnv) (ha : env.addrs ≠ []) (e : String)
    (hf : (validatePeer cfg cur env.rpc).err = some e) :
    Effect.putBackoffCache ∈ (handleOutboundConnection cfg cur env).1 ∧
    ∀ md : MetaData,
      Effect.putMetadataCache md ∉ (handleOutboundConnection cfg cur env).1
      := by
  have hb : outboundBody cfg cur env
      = (validatePeer cfg cur env.rpc).trace ++
          [.logWarn, .putBackoffCache] := by
    simp [outboundBody, ha, hf]
  constructor
  · rw [handleOutboundConnection_trace, hb]
    refine List.mem_append_left _ (List.mem_append_right _ ?_)
    simp
  · intro md
    rw [handleOutboundConnection_trace, hb]
    intro h
    rcases List.mem_append.1 h with h | h
    · rcases List.mem_append.1 h with h | h
      · exact validatePeer_err_no_cache cfg cur env.rpc e hf md h
      · simp at h
    · rcases cleanup_mem_only _ _ _ h with h | h | h <;> simp at h

/-- C7 witness: a concrete outbound flow whose Ping fails records the
peer in the backoff cache. -/
theorem outbound_validate_failure_backoff_witness :
    Effect.putBackoffCache
      ∈ (handleOutboundConnection [0] ⟨[0], 1, 0, []⟩
          ⟨[7], ⟨.ok ⟨[0], 2, 0, []⟩, .error "timeout", .ok ⟨1, [2]⟩⟩, true,
            .ok ()⟩).1 :=
  (outbound_validate_failure_backoff [0] ⟨[0], 1, 0, []⟩
      ⟨[7], ⟨.ok ⟨[0], 2, 0, []⟩, .error "timeout", .ok ⟨1, [2]⟩⟩, true,
        .ok ()⟩ (by decide) (wrapErr "Failed to ping peer" "timeout")
      rfl).1

/-- True for the Ack action. -/
def isAck : CAct → Bool
  | .ack => true
  | _ => false

/-- C8: a message whose payload fails to unmarshal is terminated and
nothing else happens (no write, no ack); a message that unmarshals is
written to parquet and then explicitly acknowledged — the write attempt
comes strictly before the ack, the message is never terminated, and the
quantification over every write outcome shows the ack happens whether the
write succeeded or failed. -/
theorem handleMessage_ack_policy (m : ConsumerMsg) :
    (∀ e : String,
      m.body = .peerDiscovered (.error e) ∨
        m.body = .metadataReceived (.error e) →
      handleMessage m = [.term]) ∧
    (∀ ev : PeerDiscoveredEvent, m.body = .peerDiscovered (.ok ev) →
      (handleMessage m).countP isWriteAttempt = 1 ∧
      CAct.ack ∈ handleMessage m ∧
      CAct.term ∉ handleMessage m ∧
      (handleMessage m).findIdx isWriteAttempt
        < (handleMessage m).findIdx isAck) ∧
    (∀ ev : MetadataReceivedEvent, m.body = .metadataReceived (.ok ev) →
      (handleMessage m).countP isWriteAttempt = 1 ∧
      CAct.ack ∈ handleMessage m ∧
      CAct.term ∉ handleMessage m ∧
      (handleMessage m).findIdx isWriteAttempt
        < (handleMessage m).findIdx isAck) := by
  obtain ⟨b, w, a⟩ := m
  refine ⟨?_, ?_, ?_⟩
  · intro e he
    rcases he with he | he <;> simp only at he <;> subst he <;> rfl
  · intro ev he
    simp only at he
    subst he
    cases w with
    | ok u =>
        cases a <;>
          exact ⟨rfl, by simp [handleMessage, ackActs],
            by simp [handleMessage, ackActs], (by decide : (1 : Nat) < 2)⟩
    | error s =>
        cases a <;>
          exact ⟨rfl, by simp [handleMessage, ackActs],
            by simp [handleMessage, ackActs], (by decide : (1 : Nat) < 3)⟩
  · intro ev he
    simp only at he
    subst he
    cases w with
    | ok u =>
        cases a <;>
          exact ⟨rfl, by simp [handleMessage, ackActs],
            by simp [handleMessage, ackActs], (by decide : (1 : Nat) < 2)⟩
    | error s =>
        cases a <;>
          exact ⟨rfl, by simp [handleMessage, ackActs],
            by simp [handleMessage, ackActs], (by decide : (1 : Nat) < 3)⟩

/-- C8 witness: a concrete well-formed metadata message whose parquet
write fails is still acknowledged, after exactly one write attempt. -/
theorem handleMessage_ack_policy_witness :
    (handleMessage
        ⟨.metadataReceived (.ok
            ⟨"p", "/ip4/1.2.3.4", 5, some ⟨7, [255]⟩, "lh", "c1", "eu", 99⟩),
          .error "disk full", .ok ()⟩).countP isWriteAttempt = 1 ∧
      CAct.ack ∈ handleMessage
        ⟨.metadataReceived (.ok
            ⟨"p", "/ip4/1.2.3.4", 5, some ⟨7, [255]⟩, "lh", "c1", "eu", 99⟩),
          .error "disk full", .ok ()⟩ :=
  ⟨((handleMessage_ack_policy
      ⟨.metadataReceived (.ok
          ⟨"p", "/ip4/1.2.3.4", 5, some ⟨7, [255]⟩, "lh", "c1", "eu", 99⟩),
        .error "disk full", .ok ()⟩).2.2
      ⟨"p", "/ip4/1.2.3.4", 5, some ⟨7, [255]⟩, "lh", "c1", "eu", 99⟩
      rfl).1,
   ((handleMessage_ack_policy
      ⟨.metadataReceived (.ok
          ⟨"p", "/ip4/1.2.3.4", 5, some ⟨7, [255]⟩, "lh", "c1", "eu", 99⟩),
        .error "disk full", .ok ()⟩).2.2
      ⟨"p", "/ip4/1.2.3.4", 5, some ⟨7, [255]⟩, "lh", "c1", "eu", 99⟩
      rfl).2.1⟩

/-- C9: the store functions never copy the event's timestamp into the
parquet record (both kinds) nor the metadata payload (metadata kind) —
every written row carries timestamp 0 and a null metadata blob, whatever
the event held, while the identifier/address/crawler fields are copied;
this contradicts the claim that the record carries the event's timestamp
and metadata payload. -/
theorem store_drops_timestamp_and_payload (e : MetadataReceivedEvent)
    (pd : PeerDiscoveredEvent) :
    (storeMetadataReceivedEvent e).timestamp = 0 ∧
    (storeMetadataReceivedEvent e).metaData = none ∧
    (storePeerDiscoveredEvent pd).timestamp = 0 ∧
    (storeMetadataReceivedEvent e).id = e.id ∧
    (storeMetadataReceivedEvent e).multiaddr = e.multiaddr ∧
    (storeMetadataReceivedEvent e).epoch = e.epoch ∧
    (storePeerDiscoveredEvent pd).id = pd.id ∧
    (storePeerDiscoveredEvent pd).port = pd.port :=
  ⟨rfl, rfl, rfl, rfl, rfl, rfl, rfl, rfl⟩

end Valtrack
